import Mathlib

/-!
Shallow embedding of the study-workflow core of the repository
(backend/workflows: study_flow_graph.py, state.py, and the five node
modules planner_node.py, retrieval_node.py, quiz_generator_node.py,
grading_node.py, feedback_node.py), together with theorems settling the
claims about it.

Modelling conventions:
* Python strings are Lean `String`; `str.upper` / `str.lower` / `str.strip`
  / `str.split()` are embedded character-by-character over `String.data`
  (`pyUpper`, `pyLower`, `pyStrip`, `pySplitWs`).  Lean `Char.toUpper` /
  `Char.toLower` only map ASCII letters, which matches Python on the ASCII
  answers the grading comparisons are about.
* Python dicts keyed by strings are association lists, first binding wins.
* The aggregate score `int((total_earned / total_points) * 100)` is
  embedded with an exact model of the binary64 (IEEE-754 double)
  arithmetic Python uses: a correctly rounded double division, a correctly
  rounded double multiplication by 100 (`roundBin64Ratio`, round to
  nearest, ties to even, exact rationals as values), then truncation.
  This reproduces the float behaviour, e.g. 28 — not 29 — for 29 points
  of 100.  The model covers the binary64 normal range, which contains
  every ratio two point totals can form until they exceed about 10^307.
* The short_answer fallback `int((matched / len(keywords)) * points)` and
  the threshold `earned >= possible * 0.6` are embedded as the exact
  integer computations `matched * points / len` and
  `10 * earned >= 6 * possible`: with matched ≤ len ≤ 5 and the point
  values of real quizzes these coincide with the float evaluation.  The
  relevance score `1.0 - i * 0.1` of a retrieved document becomes the
  rational `1 - i / 10`.
* The LangGraph engine of `create_study_flow_graph` is embedded as a small
  interpreter over the node tags: unconditional edges
  planner -> retrieval -> quiz_generator -> human_review -> grading ->
  feedback, the conditional edge after feedback driven by
  `should_continue`, and `interrupt_before=[human_review]` halting the run
  whenever the next node to execute is `human_review`.  A node returns a
  partial state update that the engine merges by full replacement per
  field, exactly the shape of the dicts the Python nodes return.
* Calls to the opaque model / retrieval capabilities are oracle parameters
  (`Oracles`).  An oracle value `Except.error e` models the Python call
  raising an exception with message `e`, which each node catches and turns
  into its error update.
* The `messages` channel, timestamps (`created_at` / `updated_at`) and
  `thread_id` carry no claim content and are omitted from the state.
-/

namespace StudyFlow

/-- Python `c in str` helper: does the character list `pre` lead `l`? -/
def charsLead : List Char → List Char → Bool
  | [], _ => true
  | _ :: _, [] => false
  | a :: as, b :: bs => a == b && charsLead as bs

/-- Python `needle in hay` on strings: substring containment. -/
def strContains (hay needle : String) : Bool :=
  (List.range (hay.data.length + 1)).any fun i => charsLead needle.data (hay.data.drop i)

/-- Python `str.upper()` (ASCII letters, see module conventions). -/
def pyUpper (s : String) : String := String.mk (s.data.map Char.toUpper)

/-- Python `str.lower()` (ASCII letters, see module conventions). -/
def pyLower (s : String) : String := String.mk (s.data.map Char.toLower)

/-- Drop leading whitespace characters from a character list. -/
def dropLeadWs : List Char → List Char
  | [] => []
  | c :: cs => if c.isWhitespace then dropLeadWs cs else c :: cs

/-- Python `str.strip()`: remove leading and trailing whitespace. -/
def pyStrip (s : String) : String :=
  String.mk (dropLeadWs ((dropLeadWs s.data.reverse).reverse))

/-- Helper for `pySplitWs`: accumulate the current word (reversed) while
scanning the character list. -/
def splitWsAux : List Char → List Char → List String
  | [], cur => if cur.isEmpty then [] else [String.mk cur.reverse]
  | c :: cs, cur =>
    if c.isWhitespace then
      if cur.isEmpty then splitWsAux cs []
      else String.mk cur.reverse :: splitWsAux cs []
    else splitWsAux cs (c :: cur)

/-- Python `str.split()` with no separator: split on whitespace runs,
discarding empty pieces. -/
def pySplitWs (s : String) : List String := splitWsAux s.data []

/-- Python `dict.get(k)` on an association list (first binding wins). -/
def lookupAnswer (ua : List (String × String)) (k : String) : Option String :=
  match ua.find? (fun p => p.1 = k) with
  | some p => some p.2
  | none => none

/-- Number of binary digits of a natural number.  The fuel argument (the
number itself suffices) makes the recursion structural so that the kernel
can evaluate it. -/
def bitlenAux : Nat → Nat → Nat
  | 0, _ => 0
  | fuel + 1, n => if n = 0 then 0 else bitlenAux fuel (n / 2) + 1

/-- Number of binary digits: 0 for 0, otherwise ⌊log2 n⌋ + 1. -/
def bitlen (n : Nat) : Nat := bitlenAux n n

/-- The binary64 (IEEE-754 double) value nearest to num / den, with round
to nearest and ties to even, represented exactly as a pair
(mantissa, exponent) with value mantissa × 2^exponent: the scaled integer
quotient is taken to 54-55 bits and rounded to the 53-bit significand
using the division remainder as the sticky part.  This is the result of
the Python float division `num / den` throughout the binary64 normal
range (ratios between roughly 10^-307 and 10^307), which contains every
ratio the grading computation can form; `den = 0` yields 0 (the code
guards `total_points > 0` before dividing). -/
def flDiv (num den : Nat) : Nat × Int :=
  if num = 0 ∨ den = 0 then (0, 0)
  else
    let s : Int := (bitlen num : Int) - (bitlen den : Int)
    let k : Int := 54 - s
    let N : Nat := if 0 ≤ k then num * 2 ^ k.toNat else num
    let D : Nat := if 0 ≤ k then den else den * 2 ^ (-k).toNat
    let q : Nat := N / D
    let r : Nat := N % D
    let extra : Nat := bitlen q - 53
    let low : Nat := q % 2 ^ extra
    let m0 : Nat := q / 2 ^ extra
    let lhs : Nat := 2 * (low * D + r)
    let rhs : Nat := 2 ^ extra * D
    let m : Nat :=
      if lhs < rhs then m0
      else if rhs < lhs then m0 + 1
      else if m0 % 2 = 0 then m0 else m0 + 1
    (m, (extra : Int) - k)

/-- The binary64 product of the value mantissa × 2^exponent with the
exactly representable small integer c (here 100): multiply the mantissa
and round back to the 53-bit significand, round to nearest, ties to even
(the product of the integer mantissas is exact, so there is no sticky
part below the discarded bits). -/
def flMulNat (v : Nat × Int) (c : Nat) : Nat × Int :=
  let t := v.1 * c
  let extra : Nat := bitlen t - 53
  let low := t % 2 ^ extra
  let m0 := t / 2 ^ extra
  let m :=
    if 2 * low < 2 ^ extra then m0
    else if 2 ^ extra < 2 * low then m0 + 1
    else if m0 % 2 = 0 then m0 else m0 + 1
  (m, v.2 + extra)

/-- Truncate the non-negative binary64 value mantissa × 2^exponent toward
zero — Python `int()` on a non-negative float. -/
def flTruncNat (v : Nat × Int) : Nat :=
  if 0 ≤ v.2 then v.1 * 2 ^ v.2.toNat else v.1 / 2 ^ (-v.2).toNat

/-- The aggregate percentage of grading_node.py, evaluated exactly as
Python does: `int((total_earned / total_points) * 100)` is the binary64
division, then the binary64 multiplication by 100, then truncation toward
zero. -/
def pyScorePercent (earned total : Nat) : Nat :=
  flTruncNat (flMulNat (flDiv earned total) 100)

/-- `LearningPlan` of state.py (estimated_time in minutes). -/
structure LearningPlan where
  topic : String
  objectives : List String
  key_points : List String
  difficulty : String
  estimated_time : Nat
deriving Repr, DecidableEq

/-- `QuizQuestion` of state.py. -/
structure Question where
  id : String
  type : String
  question : String
  options : Option (List String)
  answer : String
  explanation : String
  points : Nat
deriving Repr, DecidableEq

/-- The `quiz` dict built by quiz_generator_node.py. -/
structure Quiz where
  questions : List Question
  total_points : Nat
  time_limit : Nat
deriving Repr, DecidableEq

/-- A document as returned by the retriever capability
(`doc.page_content`, `doc.metadata`). -/
structure SourceDoc where
  page_content : String
  metadata : String
deriving Repr, DecidableEq

/-- `RetrievedDocument` of state.py.  The Python float relevance score is
embedded as a rational (see module conventions). -/
structure RetrievedDocument where
  content : String
  metadata : String
  relevance_score : ℚ
deriving Repr, DecidableEq

/-- `ScoreDetail` of state.py. -/
structure ScoreDetail where
  question_id : String
  user_answer : String
  correct_answer : String
  is_correct : Bool
  points_earned : Nat
  points_possible : Nat
  feedback : String
deriving Repr, DecidableEq

/-- The `score_details` dict built by grading_node.py. -/
structure ScoreDetails where
  correct_count : Nat
  total_count : Nat
  question_scores : List ScoreDetail
deriving Repr, DecidableEq

/-- `StudyFlowState` of state.py, restricted to the channels the claims
are about (messages, timestamps and thread_id omitted). -/
structure StudyFlowState where
  user_question : String
  learning_plan : Option LearningPlan
  retrieved_docs : Option (List RetrievedDocument)
  quiz : Option Quiz
  user_answers : Option (List (String × String))
  score : Option Nat
  score_details : Option ScoreDetails
  feedback : Option String
  retry_count : Nat
  should_retry : Bool
  current_step : String
  error : Option String
  error_node : Option String
deriving Repr, DecidableEq

/-- A partial state update as returned by a node: `some v` means the node
dict contains the key with value `v`; `none` means the key is absent and
the engine keeps the old value. -/
structure StateUpdate where
  learning_plan : Option LearningPlan := none
  retrieved_docs : Option (List RetrievedDocument) := none
  quiz : Option Quiz := none
  score : Option Nat := none
  score_details : Option ScoreDetails := none
  feedback : Option String := none
  retry_count : Option Nat := none
  should_retry : Option Bool := none
  current_step : Option String := none
  error : Option String := none
  error_node : Option String := none
deriving Repr, DecidableEq

/-- The error-update shape shared by every node: the dict
`(error, error_node, current_step)` returned from the except branches. -/
def errorUpdate (msg node step : String) : StateUpdate :=
  { error := some msg, error_node := some node, current_step := some step }

/-- LangGraph merge of a partial update into the state: every channel in
scope here is replace-on-present. -/
def applyUpdate (s : StudyFlowState) (u : StateUpdate) : StudyFlowState :=
  { s with
    learning_plan := match u.learning_plan with
      | some v => some v
      | none => s.learning_plan
    retrieved_docs := match u.retrieved_docs with
      | some v => some v
      | none => s.retrieved_docs
    quiz := match u.quiz with
      | some v => some v
      | none => s.quiz
    score := match u.score with
      | some v => some v
      | none => s.score
    score_details := match u.score_details with
      | some v => some v
      | none => s.score_details
    feedback := match u.feedback with
      | some v => some v
      | none => s.feedback
    retry_count := u.retry_count.getD s.retry_count
    should_retry := u.should_retry.getD s.should_retry
    current_step := u.current_step.getD s.current_step
    error := match u.error with
      | some v => some v
      | none => s.error
    error_node := match u.error_node with
      | some v => some v
      | none => s.error_node }

/-- Outcome of the model call that grades one short_answer question in
grading_node.py: `parsed raw fb` when the response text could be parsed
into an integer score `raw` (the digit extraction yields a non-negative
integer) with comment `fb`; `unparseable` when parsing raised and the
keyword fallback runs; `invokeError` when `model.invoke` itself raised
(the exception then escapes to the except branch of the node). -/
inductive SAOutcome where
  | parsed (raw : Nat) (fb : String)
  | unparseable
  | invokeError (msg : String)
deriving Repr, DecidableEq

/-- Outcome of loading the index and running the primary retrieval query
in retrieval_node.py: a document list, `FileNotFoundError` (index absent),
or any other exception. -/
inductive RetrievalOutcome where
  | ok (docs : List SourceDoc)
  | indexNotFound
  | failure (msg : String)
deriving Repr, DecidableEq

/-- The opaque model / retrieval capabilities consumed by the nodes.
`Except.error e` models the Python call raising with message `e`. -/
structure Oracles where
  plan : Except String LearningPlan
  retrieve : RetrievalOutcome
  retrieveExtra : String → List SourceDoc
  quiz : Except String Quiz
  gradeSA : Question → String → SAOutcome
  feedbackText : Except String String

/-- The user answer grading_node.py looks up for a question:
`user_answers.get(q_id, "").strip()`. -/
def userAnswerFor (ua : List (String × String)) (q : Question) : String :=
  pyStrip ((lookupAnswer ua q.id).getD "")

/-- Per-question grading of grading_node.py (the body of the for loop).
`Except.error` models an exception escaping to the outer except branch of
the node: a failing `model.invoke` on a short_answer question, or the
`ZeroDivisionError` of the keyword fallback when `correct_answer` has no
whitespace tokens. -/
def gradeQuestion (o : Oracles) (ua : List (String × String)) (q : Question) :
    Except String ScoreDetail :=
  let user_answer := userAnswerFor ua q
  if q.type = "multiple_choice" then
    Except.ok
      { question_id := q.id
        user_answer := user_answer
        correct_answer := q.answer
        is_correct := decide (pyUpper user_answer = pyUpper q.answer)
        points_earned := if pyUpper user_answer = pyUpper q.answer then q.points else 0
        points_possible := q.points
        feedback := if pyUpper user_answer = pyUpper q.answer then "回答正确！"
          else "回答错误。正确答案是：" ++ q.answer }
  else if q.type = "fill_blank" then
    Except.ok
      { question_id := q.id
        user_answer := user_answer
        correct_answer := q.answer
        is_correct := decide (pyLower user_answer = pyLower q.answer)
        points_earned := if pyLower user_answer = pyLower q.answer then q.points else 0
        points_possible := q.points
        feedback := if pyLower user_answer = pyLower q.answer then "回答正确！"
          else "回答错误。正确答案是：" ++ q.answer }
  else if q.type = "short_answer" then
    match o.gradeSA q user_answer with
    | SAOutcome.invokeError msg => Except.error msg
    | SAOutcome.parsed raw fb =>
      let points_earned := min raw q.points
      Except.ok
        { question_id := q.id
          user_answer := user_answer
          correct_answer := q.answer
          is_correct := decide (10 * points_earned ≥ 6 * q.points)
          points_earned := points_earned
          points_possible := q.points
          feedback := fb }
    | SAOutcome.unparseable =>
      let keywords := (pySplitWs (pyLower q.answer)).take 5
      if keywords.length = 0 then Except.error "division by zero"
      else
        let matched :=
          (keywords.filter fun kw => strContains (pyLower user_answer) kw).length
        let points_earned := matched * q.points / keywords.length
        Except.ok
          { question_id := q.id
            user_answer := user_answer
            correct_answer := q.answer
            is_correct := decide (10 * points_earned ≥ 6 * q.points)
            points_earned := points_earned
            points_possible := q.points
            feedback := "得分基于关键词匹配。建议参考标准答案：" ++ q.answer }
  else
    Except.ok
      { question_id := q.id
        user_answer := user_answer
        correct_answer := q.answer
        is_correct := false
        points_earned := 0
        points_possible := q.points
        feedback := "未知题型，无法评分" }

/-- The grading loop of grading_node.py: accumulates the score details,
`total_earned` and `correct_count` over the questions. -/
def gradeLoop (o : Oracles) (ua : List (String × String)) :
    List Question → List ScoreDetail → Nat → Nat →
    Except String (List ScoreDetail × Nat × Nat)
  | [], acc, earned, correct => Except.ok (acc, earned, correct)
  | q :: rest, acc, earned, correct =>
    match gradeQuestion o ua q with
    | Except.error e => Except.error e
    | Except.ok d =>
      gradeLoop o ua rest (acc ++ [d]) (earned + d.points_earned)
        (correct + if d.is_correct then 1 else 0)

/-- grading_node of grading_node.py.  The precondition
`if not quiz or not user_answers` raises `ValueError`, caught by the
except branch; `not user_answers` is also true for an empty dict. -/
def grading_node (o : Oracles) (s : StudyFlowState) : StateUpdate :=
  match s.quiz, s.user_answers with
  | some quiz, some ua =>
    if ua = [] then
      errorUpdate "评分失败: 练习题或用户答案不存在，无法评分" "grading" "grading_error"
    else
      match gradeLoop o ua quiz.questions [] 0 0 with
      | Except.error e => errorUpdate ("评分失败: " ++ e) "grading" "grading_error"
      | Except.ok r =>
        { score := some (if 0 < quiz.total_points
            then pyScorePercent r.2.1 quiz.total_points else 0)
          score_details := some
            { correct_count := r.2.2
              total_count := quiz.questions.length
              question_scores := r.1 }
          current_step := some "grading" }
  | _, _ =>
    errorUpdate "评分失败: 练习题或用户答案不存在，无法评分" "grading" "grading_error"

/-- planner_node of planner_node.py: one structured model call producing
the learning plan; any failure becomes the planner error update. -/
def planner_node (o : Oracles) (_s : StudyFlowState) : StateUpdate :=
  match o.plan with
  | Except.error e => errorUpdate ("学习计划生成失败: " ++ e) "planner" "planner_error"
  | Except.ok p => { learning_plan := some p, current_step := some "planner" }

/-- The document list computed by retrieval_node.py once the learning plan
is available: primary query results with rank-decay scores, plus up to two
supplementary queries from the first two key points (capped at two
documents each, deduplicated by content) when fewer than three primary
documents were found.  On `indexNotFound` the node proceeds with an empty
document list (the supplementary branch is skipped because `docs` is
falsy); on any other failure the except branch returns the empty list. -/
def retrievalDocs (o : Oracles) (plan : LearningPlan) : List RetrievedDocument :=
  match o.retrieve with
  | RetrievalOutcome.failure _ => []
  | RetrievalOutcome.indexNotFound => []
  | RetrievalOutcome.ok docs =>
    let primary : List RetrievedDocument := docs.enum.map fun p =>
      { content := p.2.page_content
        metadata := p.2.metadata
        relevance_score := 1 - (p.1 : ℚ) / 10 }
    if primary.length < 3 ∧ plan.key_points ≠ [] ∧ docs ≠ [] then
      (plan.key_points.take 2).foldl
        (fun acc point =>
          ((o.retrieveExtra point).take 2).foldl
            (fun acc2 d =>
              if (acc2.map RetrievedDocument.content).contains d.page_content then acc2
              else acc2 ++
                [{ content := d.page_content
                   metadata := d.metadata
                   relevance_score := (7 : ℚ) / 10 }])
            acc)
        primary
    else primary

/-- retrieval_node of retrieval_node.py.  Every path — success, missing
index, missing learning plan, or any exception — returns an update with a
`retrieved_docs` list and `current_step = "retrieval"`, never an error
field: retrieval failure is deliberately non-fatal. -/
def retrieval_node (o : Oracles) (s : StudyFlowState) : StateUpdate :=
  { retrieved_docs := some (match s.learning_plan with
      | none => []
      | some plan => retrievalDocs o plan)
    current_step := some "retrieval" }

/-- quiz_generator_node of quiz_generator_node.py: requires the learning
plan, runs one structured model call, and stores the quiz with
`current_step = "quiz_generated"`. -/
def quiz_generator_node (o : Oracles) (s : StudyFlowState) : StateUpdate :=
  match s.learning_plan with
  | none =>
    errorUpdate "练习题生成失败: 学习计划不存在，无法生成练习题" "quiz_generator" "quiz_error"
  | some _ =>
    match o.quiz with
    | Except.error e => errorUpdate ("练习题生成失败: " ++ e) "quiz_generator" "quiz_error"
    | Except.ok q => { quiz := some q, current_step := some "quiz_generated" }

/-- feedback_node of feedback_node.py.  When grading never ran,
`score_details` is `None` and `score_details.get(...)` raises
`AttributeError`; likewise `learning_plan.get(...)` when the plan is
missing, and `score < 60` raises `TypeError` when `score` is `None`.
The exception texts are abstracted; each lands in the except branch. -/
def feedback_node (o : Oracles) (s : StudyFlowState) : StateUpdate :=
  match s.score_details with
  | none => errorUpdate "反馈生成失败: AttributeError" "feedback" "feedback_error"
  | some _ =>
    match s.learning_plan with
    | none => errorUpdate "反馈生成失败: AttributeError" "feedback" "feedback_error"
    | some _ =>
      match o.feedbackText with
      | Except.error e => errorUpdate ("反馈生成失败: " ++ e) "feedback" "feedback_error"
      | Except.ok fb =>
        match s.score with
        | none => errorUpdate "反馈生成失败: TypeError" "feedback" "feedback_error"
        | some score =>
          { feedback := some fb
            should_retry := some (decide (score < 60 ∧ s.retry_count < 3))
            retry_count := some (if score < 60 ∧ s.retry_count < 3
              then s.retry_count + 1 else s.retry_count)
            current_step := some "feedback" }

/-- should_continue of study_flow_graph.py: the conditional routing after
feedback. -/
def should_continue (s : StudyFlowState) : String :=
  if s.should_retry = true ∧ s.retry_count < 3 then "retry" else "end"

/-- The nodes of the graph built by create_study_flow_graph, plus `done`
for END. -/
inductive NodeTag where
  | planner
  | retrieval
  | quizGen
  | humanReview
  | grading
  | feedback
  | done
deriving Repr, DecidableEq

/-- The partial update a node returns.  `human_review` is the inline node
of create_study_flow_graph that only marks the step. -/
def nodeUpdate (o : Oracles) (n : NodeTag) (s : StudyFlowState) : StateUpdate :=
  match n with
  | NodeTag.planner => planner_node o s
  | NodeTag.retrieval => retrieval_node o s
  | NodeTag.quizGen => quiz_generator_node o s
  | NodeTag.humanReview => { current_step := some "waiting_for_answers" }
  | NodeTag.grading => grading_node o s
  | NodeTag.feedback => feedback_node o s
  | NodeTag.done => {}

/-- Execute one node: run it on the state and merge its update. -/
def execNode (o : Oracles) (n : NodeTag) (s : StudyFlowState) : StudyFlowState :=
  applyUpdate s (nodeUpdate o n s)

/-- The edges of create_study_flow_graph: unconditional edges between the
pipeline nodes, and the conditional edge after feedback dispatching on
`should_continue` of the post-feedback state. -/
def nextNode (n : NodeTag) (s : StudyFlowState) : NodeTag :=
  match n with
  | NodeTag.planner => NodeTag.retrieval
  | NodeTag.retrieval => NodeTag.quizGen
  | NodeTag.quizGen => NodeTag.humanReview
  | NodeTag.humanReview => NodeTag.grading
  | NodeTag.grading => NodeTag.feedback
  | NodeTag.feedback => if should_continue s = "retry" then NodeTag.quizGen else NodeTag.done
  | NodeTag.done => NodeTag.done

/-- The LangGraph invoke loop under `interrupt_before=[human_review]`:
starting at node `n`, repeatedly execute the current node and follow the
edges, halting when the node to execute next is `human_review` (the
interrupt) or END.  Returns the list of executed nodes in order, the node
at which execution stopped, and the final state.  The fuel argument only
bounds the recursion; every run from any node reaches the interrupt or END
within four steps, so the fixed fuel of `start_study_flow` and
`submit_answers` below is never exhausted. -/
def runUntilInterrupt (o : Oracles) :
    Nat → NodeTag → StudyFlowState → List NodeTag × NodeTag × StudyFlowState
  | 0, n, s => ([], n, s)
  | fuel + 1, n, s =>
    if n = NodeTag.humanReview ∨ n = NodeTag.done then ([], n, s)
    else
      let s2 := execNode o n s
      let r := runUntilInterrupt o fuel (nextNode n s2) s2
      (n :: r.1, r.2.1, r.2.2)

/-- The initial state built by start_study_flow (timestamps, messages and
thread_id omitted, see module conventions). -/
def initialState (user_question : String) : StudyFlowState :=
  { user_question := user_question
    learning_plan := none
    retrieved_docs := none
    quiz := none
    user_answers := none
    score := none
    score_details := none
    feedback := none
    retry_count := 0
    should_retry := false
    current_step := "start"
    error := none
    error_node := none }

/-- start_study_flow of study_flow_graph.py: build the initial state and
invoke the graph from the entry point; the invoke returns when the run is
interrupted before `human_review`. -/
def start_study_flow (o : Oracles) (user_question : String) :
    List NodeTag × NodeTag × StudyFlowState :=
  runUntilInterrupt o 10 NodeTag.planner (initialState user_question)

/-- submit_answers of study_flow_graph.py: merge the user answers into the
paused state (`update_state`), then resume the invoke, which first
executes the interrupted `human_review` node and continues along the
edges until the next interrupt or END. -/
def submit_answers (o : Oracles) (answers : List (String × String))
    (paused : StudyFlowState) : List NodeTag × NodeTag × StudyFlowState :=
  let s1 := { paused with user_answers := some answers }
  let s2 := execNode o NodeTag.humanReview s1
  let r := runUntilInterrupt o 10 (nextNode NodeTag.humanReview s2) s2
  (NodeTag.humanReview :: r.1, r.2.1, r.2.2)

/-! ### Definitions modelled from the wording of the specification

These follow the words of spec.md, to be compared with the definitions
embedded from the source. -/

/-- Modelled from the spec (§4.4 Grade): aggregate
score = round(100 × earnedPoints / totalPoints), or 0 if totalPoints is 0.
Rounding is half-up rounding of the exact ratio. -/
def specRoundedScore (earned total : Nat) : Nat :=
  if 0 < total then (200 * earned + total) / (2 * total) else 0

/-- Modelled from the spec (§4.4 Grade, fill_blank):
case-insensitive, trimmed exact match of the two answers. -/
def specTrimCiMatch (userAnswer correctAnswer : String) : Bool :=
  decide (pyLower (pyStrip userAnswer) = pyLower (pyStrip correctAnswer))

/-- Modelled from the spec (§4.4 Grade, short_answer fallback): take the
first 5 whitespace-tokenized words of correctAnswer, count case-insensitive
token containment in the answer, proportional score =
(matched / 5) × pointsPossible. -/
def specKeywordScore (correctAnswer userAnswer : String) (pointsPossible : Nat) : Nat :=
  let keywords := (pySplitWs (pyLower correctAnswer)).take 5
  let matched := (keywords.filter fun kw => strContains (pyLower userAnswer) kw).length
  matched * pointsPossible / 5

/-! ### Small projection helpers used in statements -/

/-- Points earned by a per-question grading result, `none` on exception. -/
def earnedOf : Except String ScoreDetail → Option Nat
  | Except.ok d => some d.points_earned
  | Except.error _ => none

/-- Correctness flag of a per-question grading result, `none` on exception. -/
def correctOf : Except String ScoreDetail → Option Bool
  | Except.ok d => some d.is_correct
  | Except.error _ => none

/-! ### Concrete fixtures for witnesses and counterexamples -/

/-- A concrete learning plan as the planner capability would produce. -/
def plan0 : LearningPlan :=
  { topic := "机器学习"
    objectives := ["了解定义", "掌握分类", "会举例"]
    key_points := ["监督学习", "无监督学习", "过拟合", "训练集", "泛化"]
    difficulty := "beginner"
    estimated_time := 60 }

/-- A concrete multiple-choice question worth 2 points, answer A. -/
def q1mc : Question :=
  { id := "q1"
    type := "multiple_choice"
    question := "以下哪项属于监督学习？"
    options := some ["A. 分类", "B. 聚类", "C. 降维", "D. 采样"]
    answer := "A"
    explanation := "分类是监督学习"
    points := 2 }

/-- A concrete multiple-choice question worth 1 point, answer B. -/
def q2mc : Question :=
  { id := "q2"
    type := "multiple_choice"
    question := "以下哪项属于无监督学习？"
    options := some ["A. 回归", "B. 聚类", "C. 分类", "D. 排序"]
    answer := "B"
    explanation := "聚类是无监督学习"
    points := 1 }

/-- A two-question quiz with total_points = 3. -/
def quiz0 : Quiz := { questions := [q1mc, q2mc], total_points := 3, time_limit := 10 }

/-- A quiz with no questions and total_points = 0 (the division boundary). -/
def quizZero : Quiz := { questions := [], total_points := 0, time_limit := 5 }

/-- Oracles on which every capability succeeds (short-answer grading
responses are unparseable, exercising the deterministic fallback). -/
def oGood : Oracles :=
  { plan := Except.ok plan0
    retrieve := RetrievalOutcome.ok []
    retrieveExtra := fun _ => []
    quiz := Except.ok quiz0
    gradeSA := fun _ _ => SAOutcome.unparseable
    feedbackText := Except.ok "继续努力" }

/-- Oracles whose retrieval capability reports that the index is missing. -/
def oNoIndex : Oracles := { oGood with retrieve := RetrievalOutcome.indexNotFound }

/-- The fresh state of a session asking one concrete question. -/
def baseState : StudyFlowState := initialState "什么是机器学习"

/-- A state in which feedback has asked for a retry and one retry happened. -/
def sRetryable : StudyFlowState := { baseState with should_retry := true, retry_count := 1 }

/-- A state in which feedback asked for a retry but three retries happened. -/
def sExhausted : StudyFlowState := { baseState with should_retry := true, retry_count := 3 }

/-! ### Claim theorems -/

/-- Claim C1, counterexample: with every capability succeeding,
start_study_flow is interrupted before human_review as claimed, but the
paused state it returns carries current_step = "quiz_generated" — the
value set by the quiz generator — and not "waiting_for_answers", because
the human_review node that writes "waiting_for_answers" only runs after
resume. -/
theorem start_pauses_currentStep_counterexample :
    (start_study_flow oGood "什么是机器学习").2.1 = NodeTag.humanReview
  ∧ (start_study_flow oGood "什么是机器学习").2.2.current_step = "quiz_generated"
  ∧ ("quiz_generated" : String) ≠ "waiting_for_answers" :=
  ⟨rfl, rfl, by decide⟩

/-- Claim C1 as amended: for every oracle assignment, start_study_flow
executes exactly planner, retrieval and quiz_generator in that order and
halts with human_review as the pending node (exactly before the human
suspension point); when the plan and quiz capabilities succeed, the paused
state stores the quiz and carries current_step = "quiz_generated"
("waiting_for_answers" is only written by human_review at resume time). -/
theorem start_executes_three_steps_and_pauses (o : Oracles) (uq : String)
    (p : LearningPlan) (qz : Quiz)
    (hp : o.plan = Except.ok p) (hq : o.quiz = Except.ok qz) :
    (start_study_flow o uq).1 = [NodeTag.planner, NodeTag.retrieval, NodeTag.quizGen]
  ∧ (start_study_flow o uq).2.1 = NodeTag.humanReview
  ∧ (start_study_flow o uq).2.2.current_step = "quiz_generated"
  ∧ (start_study_flow o uq).2.2.quiz = some qz := by
  obtain ⟨po, ro, eo, qo, so, fo⟩ := o
  change po = Except.ok p at hp
  change qo = Except.ok qz at hq
  subst hp; subst hq
  exact ⟨rfl, rfl, rfl, rfl⟩

/-- Witness for the amended claim C1 at a concrete oracle assignment. -/
theorem start_executes_three_steps_and_pauses_witness :
    (start_study_flow oGood "什么是机器学习").1 =
      [NodeTag.planner, NodeTag.retrieval, NodeTag.quizGen]
  ∧ (start_study_flow oGood "什么是机器学习").2.1 = NodeTag.humanReview
  ∧ (start_study_flow oGood "什么是机器学习").2.2.current_step = "quiz_generated"
  ∧ (start_study_flow oGood "什么是机器学习").2.2.quiz = some quiz0 :=
  start_executes_three_steps_and_pauses oGood "什么是机器学习" plan0 quiz0 rfl rfl

/-- Claim C2: should_continue is a pure function of the state that
returns "retry" exactly when should_retry is true and retry_count < 3,
and returns "end" in every other case (purity and determinism are
inherent: it is a total Lean function of the state). -/
theorem should_continue_pure_decision (s : StudyFlowState) :
    (should_continue s = "retry" ↔ (s.should_retry = true ∧ s.retry_count < 3))
  ∧ (¬ (s.should_retry = true ∧ s.retry_count < 3) → should_continue s = "end")
  ∧ (should_continue s = "retry" ∨ should_continue s = "end") := by
  unfold should_continue
  by_cases h : s.should_retry = true ∧ s.retry_count < 3
  · simp [h]
  · simp [h]

/-- Witness for claim C2: the decision rule evaluated on two concrete
states, one on each side of the retry bound. -/
theorem should_continue_pure_decision_witness :
    should_continue sRetryable = "retry" ∧ should_continue sExhausted = "end" :=
  ⟨(should_continue_pure_decision sRetryable).1.mpr ⟨rfl, by decide⟩,
   (should_continue_pure_decision sExhausted).2.1 (by decide)⟩

/-- A paused session whose quiz generation failed: the state carries the
quiz_generator error marker and no quiz. -/
def sQuizFailed : StudyFlowState :=
  { baseState with
    learning_plan := some plan0
    current_step := "quiz_error"
    error := some "练习题生成失败: 生成异常"
    error_node := some "quiz_generator" }

/-- A concrete answer submission. -/
def ans0 : List (String × String) := [("q1", "A")]

/-- The state right after the grading step of the resumed run on
`sQuizFailed` stores its error marker. -/
def sAfterGradingError : StudyFlowState :=
  execNode oGood NodeTag.grading
    (execNode oGood NodeTag.humanReview { sQuizFailed with user_answers := some ans0 })

/-- Claim C4, counterexample: in the resumed run on `sQuizFailed`, the
grading step stores error, errorStep = "grading" and the marker
current_step = "grading_error" — yet the engine still executes the
feedback step of the same session right afterwards (the executed node
trace of the resume is human_review, grading, feedback), with no external
intervention in between. -/
theorem error_marker_counterexample :
    sAfterGradingError.current_step = "grading_error"
  ∧ sAfterGradingError.error_node = some "grading"
  ∧ sAfterGradingError.error = some "评分失败: 练习题或用户答案不存在，无法评分"
  ∧ (submit_answers oGood ans0 sQuizFailed).1 =
      [NodeTag.humanReview, NodeTag.grading, NodeTag.feedback] :=
  ⟨rfl, rfl, rfl, rfl⟩

/-- Claim C4 as amended: storing error/errorStep and a "<step>_error"
marker does not halt the engine.  The unconditional edges still advance:
in every resumed run, whatever the grading step stores — error marker or
not — the feedback step executes immediately afterwards, and the
successor of grading never depends on the error fields.  Execution stops
only at the human_review interrupt or at END. -/
theorem engine_advances_past_error (o : Oracles) (ans : List (String × String))
    (s : StudyFlowState) :
    (∃ rest, (submit_answers o ans s).1 =
        NodeTag.humanReview :: NodeTag.grading :: NodeTag.feedback :: rest)
  ∧ (∀ s2 : StudyFlowState, nextNode NodeTag.grading s2 = NodeTag.feedback) :=
  ⟨⟨_, rfl⟩, fun _ => rfl⟩

/-- Claim C9: a missing index or any retrieval failure is not fatal: the
retrieval step returns retrieved_docs = [] with no error field and the
normal current_step, the graph edge still leads to the quiz generator,
and the start run still executes quiz generation. -/
theorem retrieval_not_fatal (o : Oracles) (s : StudyFlowState)
    (h : o.retrieve = RetrievalOutcome.indexNotFound ∨
         ∃ m, o.retrieve = RetrievalOutcome.failure m) :
    (retrieval_node o s).retrieved_docs = some []
  ∧ (retrieval_node o s).error = none
  ∧ (retrieval_node o s).current_step = some "retrieval"
  ∧ (∀ s2 : StudyFlowState, nextNode NodeTag.retrieval s2 = NodeTag.quizGen)
  ∧ (∀ uq : String, (start_study_flow o uq).1 =
      [NodeTag.planner, NodeTag.retrieval, NodeTag.quizGen]) := by
  refine ⟨?_, rfl, rfl, fun _ => rfl, fun _ => rfl⟩
  obtain ⟨uq, lp, rd, qz, ua, sc, sd, fb, rc, sr, cs, er, en⟩ := s
  unfold retrieval_node retrievalDocs
  cases lp with
  | none => rfl
  | some plan => rcases h with h | ⟨m, h⟩ <;> rw [show o.retrieve = _ from h]

/-- Witness for claim C9 at the concrete missing-index oracle. -/
theorem retrieval_not_fatal_witness :
    (retrieval_node oNoIndex baseState).retrieved_docs = some []
  ∧ (retrieval_node oNoIndex baseState).error = none
  ∧ (retrieval_node oNoIndex baseState).current_step = some "retrieval"
  ∧ (start_study_flow oNoIndex "什么是机器学习").1 =
      [NodeTag.planner, NodeTag.retrieval, NodeTag.quizGen] :=
  ⟨(retrieval_not_fatal oNoIndex baseState (Or.inl rfl)).1,
   (retrieval_not_fatal oNoIndex baseState (Or.inl rfl)).2.1,
   (retrieval_not_fatal oNoIndex baseState (Or.inl rfl)).2.2.1,
   (retrieval_not_fatal oNoIndex baseState (Or.inl rfl)).2.2.2.2 "什么是机器学习"⟩

/-- The grading loop appends its per-question results to the accumulator
and adds the points and correct count of the produced tail to the running
totals. -/
theorem gradeLoop_ok_characterization (o : Oracles) (ua : List (String × String)) :
    ∀ (qs : List Question) (acc : List ScoreDetail) (earned correct : Nat)
      (res : List ScoreDetail × Nat × Nat),
      gradeLoop o ua qs acc earned correct = Except.ok res →
      ∃ tail, res.1 = acc ++ tail
        ∧ res.2.1 = earned + (tail.map ScoreDetail.points_earned).sum
        ∧ res.2.2 = correct + (tail.filter ScoreDetail.is_correct).length
  | [], acc, earned, correct, res, h => by
    unfold gradeLoop at h
    cases h
    exact ⟨[], by simp⟩
  | q :: rest, acc, earned, correct, res, h => by
    unfold gradeLoop at h
    cases hq : gradeQuestion o ua q with
    | error e => rw [hq] at h; cases h
    | ok d =>
      rw [hq] at h
      obtain ⟨tail, h1, h2, h3⟩ :=
        gradeLoop_ok_characterization o ua rest (acc ++ [d]) _ _ res h
      refine ⟨d :: tail, ?_, ?_, ?_⟩
      · rw [h1]; simp
      · rw [h2]; simp [Nat.add_assoc]
      · rw [h3]; cases hd : d.is_correct <;> simp [List.filter_cons, hd] <;> omega

/-- A session state holding `quiz0` and answers that earn 2 of the 3
points (q1 right, q2 wrong). -/
def sC5 : StudyFlowState :=
  { baseState with
    learning_plan := some plan0
    quiz := some quiz0
    user_answers := some [("q1", "A"), ("q2", "C")] }

/-- Claim C5, counterexample: on a quiz worth 3 points with 2 points
earned, the code computes score = int((2 / 3) * 100) = 66 by truncation,
while round(100 × 2 / 3) = 67: the aggregate score does not equal the
rounded ratio. -/
theorem score_rounding_counterexample :
    (grading_node oGood sC5).score = some 66
  ∧ (grading_node oGood sC5).score_details = some
      { correct_count := 1
        total_count := 2
        question_scores :=
          [{ question_id := "q1", user_answer := "A", correct_answer := "A",
             is_correct := true, points_earned := 2, points_possible := 2,
             feedback := "回答正确！" },
           { question_id := "q2", user_answer := "C", correct_answer := "B",
             is_correct := false, points_earned := 0, points_possible := 1,
             feedback := "回答错误。正确答案是：B" }] }
  ∧ specRoundedScore 2 3 = 67
  ∧ (66 : Nat) ≠ 67 :=
  ⟨rfl, rfl, rfl, by decide⟩

/-- Binary64 fidelity anchors for `pyScorePercent`: at total 100, Python
floats truncate 29, 57 and 58 earned points DOWN to 28, 56 and 57 — one
below the exact floor — while 2 of 3 points gives 66 (the exact floor,
and one below the rounded value 67 the spec states). -/
theorem pyScorePercent_anchors :
    pyScorePercent 29 100 = 28 ∧ pyScorePercent 57 100 = 56
  ∧ pyScorePercent 58 100 = 57 ∧ pyScorePercent 2 3 = 66
  ∧ pyScorePercent 1 2 = 50 ∧ pyScorePercent 100 100 = 100 := by
  exact ⟨rfl, rfl, rfl, rfl, rfl, rfl⟩

/-- Claim C5 as amended: for every graded quiz the aggregate score is
`int((earnedPoints / totalPoints) * 100)` evaluated in Python binary64
floating point and truncated toward zero — not the rounded ratio the
claim states (2 of 3 points gives 66, not 67), and not even always the
exact floor (29 of 100 gives 28) — and when totalPoints is 0 the score is
0 with no division error. -/
theorem grading_score_truncates (o : Oracles) (s : StudyFlowState)
    (quiz : Quiz) (ua : List (String × String))
    (h1 : s.quiz = some quiz) (h2 : s.user_answers = some ua) (h3 : ¬ ua = [])
    (res : List ScoreDetail × Nat × Nat)
    (hres : gradeLoop o ua quiz.questions [] 0 0 = Except.ok res) :
    (grading_node o s).score = some (if 0 < quiz.total_points
        then pyScorePercent ((res.1.map ScoreDetail.points_earned).sum) quiz.total_points
        else 0)
  ∧ (quiz.total_points = 0 →
      (grading_node o s).score = some 0 ∧ (grading_node o s).error = none) := by
  obtain ⟨tail, ht1, ht2, ht3⟩ :=
    gradeLoop_ok_characterization o ua quiz.questions [] 0 0 res hres
  have hsum : res.2.1 = (res.1.map ScoreDetail.points_earned).sum := by
    rw [ht2, ht1]; simp
  unfold grading_node
  rw [h1, h2]
  dsimp only
  rw [if_neg h3, hres]
  dsimp only
  rw [hsum]
  refine ⟨rfl, fun h0 => ?_⟩
  rw [h0]
  exact ⟨by simp, rfl⟩

/-- A session state holding the empty quiz with totalPoints = 0. -/
def sZero : StudyFlowState :=
  { baseState with
    learning_plan := some plan0
    quiz := some quizZero
    user_answers := some [("q1", "A")] }

/-- Witness for the amended claim C5 at the totalPoints = 0 boundary. -/
theorem grading_score_truncates_witness :
    (grading_node oGood sZero).score = some (if 0 < quizZero.total_points
        then pyScorePercent ((([] : List ScoreDetail).map ScoreDetail.points_earned).sum)
          quizZero.total_points
        else 0)
  ∧ (quizZero.total_points = 0 →
      (grading_node oGood sZero).score = some 0 ∧ (grading_node oGood sZero).error = none) :=
  grading_score_truncates oGood sZero quizZero [("q1", "A")] rfl rfl (by decide)
    ([], 0, 0) rfl

/-- Claim C8: when quiz or user_answers is absent, the grading step fails
without producing a score: it returns the update carrying the precondition
error, errorStep = "grading" and current_step = "grading_error" — an
update, not an exception past the engine boundary (nodes return updates by
construction). -/
theorem grading_missing_inputs (o : Oracles) (s : StudyFlowState)
    (h : s.quiz = none ∨ s.user_answers = none) :
    grading_node o s =
      errorUpdate "评分失败: 练习题或用户答案不存在，无法评分" "grading" "grading_error"
  ∧ (grading_node o s).score = none
  ∧ (grading_node o s).score_details = none
  ∧ (grading_node o s).error_node = some "grading"
  ∧ (grading_node o s).current_step = some "grading_error" := by
  obtain ⟨uq, lp, rd, qz, uaF, sc, sd, fb, rc, sr, cs, er, en⟩ := s
  have hmain : grading_node o
      { user_question := uq, learning_plan := lp, retrieved_docs := rd, quiz := qz,
        user_answers := uaF, score := sc, score_details := sd, feedback := fb,
        retry_count := rc, should_retry := sr, current_step := cs, error := er,
        error_node := en } =
      errorUpdate "评分失败: 练习题或用户答案不存在，无法评分" "grading" "grading_error" := by
    rcases h with h | h
    · change qz = none at h
      subst h
      cases uaF <;> rfl
    · change uaF = none at h
      subst h
      cases qz <;> rfl
  exact ⟨hmain, by rw [hmain]; rfl, by rw [hmain]; rfl, by rw [hmain]; rfl,
    by rw [hmain]; rfl⟩

/-- Witness for claim C8 on a fresh state with no quiz. -/
theorem grading_missing_inputs_witness :
    grading_node oGood baseState =
      errorUpdate "评分失败: 练习题或用户答案不存在，无法评分" "grading" "grading_error"
  ∧ (grading_node oGood baseState).score = none :=
  ⟨(grading_missing_inputs oGood baseState (Or.inl rfl)).1,
   (grading_missing_inputs oGood baseState (Or.inl rfl)).2.1⟩

/-- A fill-blank question whose stored correct answer carries surrounding
whitespace. -/
def qFB : Question :=
  { id := "q1"
    type := "fill_blank"
    question := "法国的首都是____"
    options := none
    answer := " Paris "
    explanation := "巴黎"
    points := 10 }

/-- Claim C6, counterexample: for the fill_blank question with
correctAnswer " Paris " and the user answer "paris", the trimmed
case-insensitive answers match — so the claim awards full points — but
the code lowercases the stored answer WITHOUT trimming it
(" paris " ≠ "paris") and awards zero, marking the question incorrect. -/
theorem trimmed_match_counterexample :
    specTrimCiMatch "paris" " Paris " = true
  ∧ earnedOf (gradeQuestion oGood [("q1", "paris")] qFB) = some 0
  ∧ correctOf (gradeQuestion oGood [("q1", "paris")] qFB) = some false
  ∧ qFB.points = 10 :=
  ⟨rfl, rfl, rfl, rfl⟩

/-- Claim C6 as amended: for multiple_choice the code awards full points
exactly when the STRIPPED user answer uppercases to the uppercased
correctAnswer, and for fill_blank exactly when the STRIPPED user answer
lowercases to the lowercased correctAnswer — only the user answer is
trimmed, the stored correctAnswer is compared as-is.  Grading of these two
types never consults the model capability: it is the same for any two
oracle assignments, hence deterministic in (quiz, answers). -/
theorem mc_fb_grading_rule (o o2 : Oracles) (ua : List (String × String)) (q : Question) :
    (q.type = "multiple_choice" → ∃ d, gradeQuestion o ua q = Except.ok d
        ∧ d.points_earned =
            (if pyUpper (userAnswerFor ua q) = pyUpper q.answer then q.points else 0)
        ∧ d.is_correct = decide (pyUpper (userAnswerFor ua q) = pyUpper q.answer))
  ∧ (q.type = "fill_blank" → ∃ d, gradeQuestion o ua q = Except.ok d
        ∧ d.points_earned =
            (if pyLower (userAnswerFor ua q) = pyLower q.answer then q.points else 0)
        ∧ d.is_correct = decide (pyLower (userAnswerFor ua q) = pyLower q.answer))
  ∧ ((q.type = "multiple_choice" ∨ q.type = "fill_blank") →
        gradeQuestion o ua q = gradeQuestion o2 ua q) := by
  refine ⟨fun h => ?_, fun h => ?_, fun h => ?_⟩
  · simp only [gradeQuestion, h]
    exact ⟨_, rfl, rfl, rfl⟩
  · simp only [gradeQuestion, h]
    norm_num
    exact ⟨_, rfl, rfl, rfl⟩
  · rcases h with h | h <;> simp only [gradeQuestion, h] <;> rfl

/-- Witness for the amended claim C6 on a concrete multiple-choice
question with a lowercase, padded user answer. -/
theorem mc_fb_grading_rule_witness :
    ∃ d, gradeQuestion oGood [("q1", " a ")] q1mc = Except.ok d
      ∧ d.points_earned =
          (if pyUpper (userAnswerFor [("q1", " a ")] q1mc) = pyUpper q1mc.answer
           then q1mc.points else 0)
      ∧ d.is_correct =
          decide (pyUpper (userAnswerFor [("q1", " a ")] q1mc) = pyUpper q1mc.answer) :=
  (mc_fb_grading_rule oGood oNoIndex [("q1", " a ")] q1mc).1 rfl

/-- A short-answer question whose stored correct answer has only two
whitespace tokens. -/
def qSA2 : Question :=
  { id := "q1"
    type := "short_answer"
    question := "请解释这两个词"
    options := none
    answer := "alpha beta"
    explanation := ""
    points := 10 }

/-- Claim C7, counterexample: with the unparseable model response and
correctAnswer "alpha beta" (2 tokens), the code divides the match count by
len(keywords) = 2 and awards 2 × 10 / 2 = 10 points, while the claim
formula (matched / 5) × pointsPossible yields 4. -/
theorem keyword_fallback_counterexample :
    earnedOf (gradeQuestion oGood [("q1", "alpha beta gamma")] qSA2) = some 10
  ∧ specKeywordScore "alpha beta" "alpha beta gamma" 10 = 4
  ∧ (10 : Nat) ≠ 4 :=
  ⟨rfl, rfl, by decide⟩

/-- Claim C7 as amended: when the model response for a short_answer
question is unparseable, the fallback takes the first 5 whitespace tokens
of the lowercased correctAnswer, counts case-insensitive containment in
the (stripped) user answer, and awards the truncated proportional score
(matched / k) × pointsPossible with k = min(5, token count) — the divisor
is the number of keywords actually taken, which equals the 5 of the claim
only when correctAnswer has at least 5 tokens. -/
theorem keyword_fallback_rule (o : Oracles) (ua : List (String × String)) (q : Question)
    (ht : q.type = "short_answer")
    (hu : o.gradeSA q (userAnswerFor ua q) = SAOutcome.unparseable)
    (hk : pySplitWs (pyLower q.answer) ≠ []) :
    ∃ d, gradeQuestion o ua q = Except.ok d
      ∧ d.points_earned =
          (((pySplitWs (pyLower q.answer)).take 5).filter fun kw =>
              strContains (pyLower (userAnswerFor ua q)) kw).length * q.points /
            ((pySplitWs (pyLower q.answer)).take 5).length
      ∧ (5 ≤ (pySplitWs (pyLower q.answer)).length →
          d.points_earned = specKeywordScore q.answer (userAnswerFor ua q) q.points) := by
  have hl0 : (pySplitWs (pyLower q.answer)).length ≠ 0 := by
    simpa [List.length_eq_zero] using hk
  have hlen : ¬ ((pySplitWs (pyLower q.answer)).take 5).length = 0 := by
    rw [List.length_take]; omega
  simp only [gradeQuestion, ht, hu]
  rw [if_neg (by decide : ¬ ("short_answer" = "multiple_choice")),
    if_neg (by decide : ¬ ("short_answer" = "fill_blank")),
    if_pos trivial, if_neg hlen]
  refine ⟨_, rfl, rfl, fun h5 => ?_⟩
  have h55 : ((pySplitWs (pyLower q.answer)).take 5).length = 5 := by
    rw [List.length_take]; omega
  simp only [specKeywordScore]
  rw [h55]

/-- A short-answer question whose stored correct answer has exactly five
whitespace tokens. -/
def qSA5 : Question :=
  { id := "q1"
    type := "short_answer"
    question := "请列举"
    options := none
    answer := "alpha beta gamma delta epsilon"
    explanation := ""
    points := 10 }

/-- Witness for the amended claim C7 on a five-token correct answer,
where the divisor coincides with the 5 of the specification. -/
theorem keyword_fallback_rule_witness :
    ∃ d, gradeQuestion oGood [("q1", "alpha beta zeta")] qSA5 = Except.ok d
      ∧ d.points_earned =
          (((pySplitWs (pyLower qSA5.answer)).take 5).filter fun kw =>
              strContains (pyLower (userAnswerFor [("q1", "alpha beta zeta")] qSA5)) kw).length *
            qSA5.points /
            ((pySplitWs (pyLower qSA5.answer)).take 5).length
      ∧ (5 ≤ (pySplitWs (pyLower qSA5.answer)).length →
          d.points_earned =
            specKeywordScore qSA5.answer (userAnswerFor [("q1", "alpha beta zeta")] qSA5)
              qSA5.points) :=
  keyword_fallback_rule oGood [("q1", "alpha beta zeta")] qSA5 rfl rfl (by decide)

/-- Uppercasing a string character-by-character yields the empty string
exactly for the empty string. -/
theorem pyUpper_eq_empty_iff (s : String) : pyUpper s = "" ↔ s = "" := by
  obtain ⟨data⟩ := s
  constructor
  · intro h
    have hd : data.map Char.toUpper = ([] : List Char) := congrArg String.data h
    have hnil : data = [] := List.map_eq_nil_iff.mp hd
    rw [hnil]
  · intro h
    rw [h]
    rfl

/-- Lowercasing a string character-by-character yields the empty string
exactly for the empty string. -/
theorem pyLower_eq_empty_iff (s : String) : pyLower s = "" ↔ s = "" := by
  obtain ⟨data⟩ := s
  constructor
  · intro h
    have hd : data.map Char.toLower = ([] : List Char) := congrArg String.data h
    have hnil : data = [] := List.map_eq_nil_iff.mp hd
    rw [hnil]
  · intro h
    rw [h]
    rfl

/-- A multiple-choice question whose stored correct answer is the empty
string. -/
def qMCempty : Question :=
  { id := "q9"
    type := "multiple_choice"
    question := "空答案的题"
    options := some []
    answer := ""
    explanation := ""
    points := 5 }

/-- Claim C10, counterexample: when the question id has no entry in
user_answers, the answer defaults to the empty string — but if the stored
correctAnswer is itself empty, the empty default MATCHES it, so the code
awards full points and marks the question correct, not zero and incorrect
as the claim states. -/
theorem missing_answer_counterexample :
    lookupAnswer [("other", "X")] qMCempty.id = none
  ∧ earnedOf (gradeQuestion oGood [("other", "X")] qMCempty) = some 5
  ∧ correctOf (gradeQuestion oGood [("other", "X")] qMCempty) = some true
  ∧ qMCempty.points = 5
  ∧ (5 : Nat) ≠ 0 :=
  ⟨rfl, rfl, rfl, rfl, by decide⟩

/-- Claim C10 as amended: a question whose id has no entry in user_answers
is still graded with the empty string as the answer — never skipped and
never a failure — and for multiple_choice and fill_blank it earns zero
points and is marked incorrect whenever correctAnswer is non-empty; when
correctAnswer is itself the empty string, the empty default matches it and
earns full points. -/
theorem missing_answer_graded (o : Oracles) (ua : List (String × String)) (q : Question)
    (hmiss : lookupAnswer ua q.id = none) :
    (q.type = "multiple_choice" → ∃ d, gradeQuestion o ua q = Except.ok d
        ∧ d.user_answer = ""
        ∧ (q.answer = "" → d.points_earned = q.points ∧ d.is_correct = true)
        ∧ (q.answer ≠ "" → d.points_earned = 0 ∧ d.is_correct = false))
  ∧ (q.type = "fill_blank" → ∃ d, gradeQuestion o ua q = Except.ok d
        ∧ d.user_answer = ""
        ∧ (q.answer = "" → d.points_earned = q.points ∧ d.is_correct = true)
        ∧ (q.answer ≠ "" → d.points_earned = 0 ∧ d.is_correct = false)) := by
  have hua : userAnswerFor ua q = "" := by
    unfold userAnswerFor
    rw [hmiss]
    rfl
  constructor
  · intro h
    have hne : ∀ hq : ¬ q.answer = "", ¬ (pyUpper (userAnswerFor ua q) = pyUpper q.answer) := by
      intro hq hc
      rw [hua] at hc
      exact hq ((pyUpper_eq_empty_iff q.answer).mp (hc.symm.trans rfl))
    simp only [gradeQuestion, h]
    rw [if_pos trivial]
    refine ⟨_, rfl, hua, fun he => ?_, fun hq => ?_⟩
    · have : pyUpper (userAnswerFor ua q) = pyUpper q.answer := by rw [hua, he]
      rw [if_pos this]
      exact ⟨rfl, by simp [this]⟩
    · rw [if_neg (hne hq)]
      exact ⟨rfl, by simp [hne hq]⟩
  · intro h
    have hne : ∀ hq : ¬ q.answer = "", ¬ (pyLower (userAnswerFor ua q) = pyLower q.answer) := by
      intro hq hc
      rw [hua] at hc
      exact hq ((pyLower_eq_empty_iff q.answer).mp (hc.symm.trans rfl))
    simp only [gradeQuestion, h]
    rw [if_neg (by decide : ¬ ("fill_blank" = "multiple_choice")), if_pos trivial]
    refine ⟨_, rfl, hua, fun he => ?_, fun hq => ?_⟩
    · have : pyLower (userAnswerFor ua q) = pyLower q.answer := by rw [hua, he]
      rw [if_pos this]
      exact ⟨rfl, by simp [this]⟩
    · rw [if_neg (hne hq)]
      exact ⟨rfl, by simp [hne hq]⟩

/-- Witness for the amended claim C10: a multiple-choice question with a
non-empty correct answer and no submitted entry is graded as incorrect
with the empty-string answer. -/
theorem missing_answer_graded_witness :
    ∃ d, gradeQuestion oGood [("other", "X")] q1mc = Except.ok d
      ∧ d.user_answer = ""
      ∧ (q1mc.answer = "" → d.points_earned = q1mc.points ∧ d.is_correct = true)
      ∧ (q1mc.answer ≠ "" → d.points_earned = 0 ∧ d.is_correct = false) :=
  (missing_answer_graded oGood [("other", "X")] q1mc rfl).1 rfl

/-- Every node except feedback leaves retry_count out of its update. -/
theorem nodeUpdate_retry_count_none (o : Oracles) (n : NodeTag) (s : StudyFlowState)
    (h : n ≠ NodeTag.feedback) : (nodeUpdate o n s).retry_count = none := by
  obtain ⟨uq, lp, rd, qz, uaF, sc, sd, fb, rc, sr, cs, er, en⟩ := s
  cases n with
  | planner =>
    unfold nodeUpdate planner_node
    cases o.plan <;> rfl
  | retrieval => rfl
  | quizGen =>
    unfold nodeUpdate quiz_generator_node
    cases lp with
    | none => rfl
    | some lpv => cases o.quiz <;> rfl
  | humanReview => rfl
  | grading =>
    unfold nodeUpdate grading_node
    cases qz with
    | none => rfl
    | some quiz =>
      cases uaF with
      | none => rfl
      | some ua =>
        dsimp only
        split
        · rfl
        · split <;> rfl
  | feedback => exact absurd rfl h
  | done => rfl

/-- The feedback node keeps retry_count within the bound: it increments
only under the retry decision, which requires retry_count < 3. -/
theorem feedback_retry_le (o : Oracles) (s : StudyFlowState) (h : s.retry_count ≤ 3) :
    ((feedback_node o s).retry_count).getD s.retry_count ≤ 3 := by
  obtain ⟨uq, lp, rd, qz, uaF, sc, sd, fb, rc, sr, cs, er, en⟩ := s
  dsimp only at h ⊢
  unfold feedback_node
  cases sd with
  | none => exact h
  | some sdv =>
    cases lp with
    | none => exact h
    | some lpv =>
      cases o.feedbackText with
      | error e => exact h
      | ok fbt =>
        cases sc with
        | none => exact h
        | some score =>
          dsimp only [Option.getD]
          by_cases hc : score < 60 ∧ rc < 3
          · rw [if_pos hc]
            omega
          · rw [if_neg hc]
            exact h

/-- Executing any single node preserves retry_count ≤ 3. -/
theorem execNode_retry_le (o : Oracles) (n : NodeTag) (s : StudyFlowState)
    (h : s.retry_count ≤ 3) : (execNode o n s).retry_count ≤ 3 := by
  unfold execNode applyUpdate
  dsimp only
  by_cases hn : n = NodeTag.feedback
  · subst hn
    exact feedback_retry_le o s h
  · rw [nodeUpdate_retry_count_none o n s hn]
    exact h

/-- The invoke loop preserves retry_count ≤ 3. -/
theorem run_retry_le (o : Oracles) :
    ∀ (fuel : Nat) (n : NodeTag) (s : StudyFlowState), s.retry_count ≤ 3 →
      ((runUntilInterrupt o fuel n s).2.2).retry_count ≤ 3
  | 0, _, _, h => h
  | fuel + 1, n, s, h => by
    unfold runUntilInterrupt
    by_cases hs : n = NodeTag.humanReview ∨ n = NodeTag.done
    · rw [if_pos hs]
      exact h
    · rw [if_neg hs]
      exact run_retry_le o fuel _ _ (execNode_retry_le o n s h)

/-- A graded state on which feedback will decide to retry. -/
def sGraded : StudyFlowState :=
  { baseState with
    learning_plan := some plan0
    quiz := some quiz0
    user_answers := some [("q1", "C"), ("q2", "C")]
    score := some 40
    score_details := some { correct_count := 0, total_count := 2, question_scores := [] } }

/-- Claim C3: retry_count never exceeds 3 along any engine run (in
particular after start and after any resume from a state within the
bound), the routing function never returns "retry" once retry_count = 3
(equivalently, "retry" implies retry_count < 3), and the feedback node
changes retry_count only by the increment tied to a positive retry
decision: a changed value implies should_retry = true and equals
retry_count + 1, and a negative decision leaves it unchanged. -/
theorem retry_count_invariant :
    (∀ (o : Oracles) (fuel : Nat) (n : NodeTag) (s : StudyFlowState),
        s.retry_count ≤ 3 → ((runUntilInterrupt o fuel n s).2.2).retry_count ≤ 3)
  ∧ (∀ (o : Oracles) (uq : String), ((start_study_flow o uq).2.2).retry_count ≤ 3)
  ∧ (∀ (o : Oracles) (ans : List (String × String)) (s : StudyFlowState),
        s.retry_count ≤ 3 → ((submit_answers o ans s).2.2).retry_count ≤ 3)
  ∧ (∀ s : StudyFlowState, s.retry_count = 3 → should_continue s = "end")
  ∧ (∀ s : StudyFlowState, should_continue s = "retry" → s.retry_count < 3)
  ∧ (∀ (o : Oracles) (s : StudyFlowState) (rc : Nat),
        (feedback_node o s).retry_count = some rc →
          (rc ≠ s.retry_count →
            (feedback_node o s).should_retry = some true ∧ rc = s.retry_count + 1)
        ∧ ((feedback_node o s).should_retry = some false → rc = s.retry_count)) := by
  refine ⟨fun o fuel n s h => run_retry_le o fuel n s h,
    fun o uq => run_retry_le o 10 NodeTag.planner (initialState uq) (Nat.zero_le 3),
    fun o ans s h => ?_, fun s h3 => ?_, fun s hr => ?_, fun o s rc h => ?_⟩
  · exact run_retry_le o 10 _ _
      (execNode_retry_le o NodeTag.humanReview { s with user_answers := some ans } h)
  · unfold should_continue
    rw [if_neg]
    intro hc
    omega
  · unfold should_continue at hr
    by_cases hc : s.should_retry = true ∧ s.retry_count < 3
    · exact hc.2
    · rw [if_neg hc] at hr
      exact absurd hr (by decide)
  · obtain ⟨uq, lp, rd, qz, uaF, sc, sd, fb, rcState, sr, cs, er, en⟩ := s
    unfold feedback_node at h ⊢
    dsimp only at h ⊢
    cases sd with
    | none =>
      dsimp only at h
      exact absurd h (by simp [errorUpdate])
    | some sdv =>
      dsimp only at h ⊢
      cases lp with
      | none =>
        dsimp only at h
        exact absurd h (by simp [errorUpdate])
      | some lpv =>
        dsimp only at h ⊢
        cases hft : o.feedbackText with
        | error e =>
          rw [hft] at h
          dsimp only at h
          exact absurd h (by simp [errorUpdate])
        | ok fbt =>
          rw [hft] at h
          dsimp only at h ⊢
          cases sc with
          | none =>
            dsimp only at h
            exact absurd h (by simp [errorUpdate])
          | some score =>
            dsimp only at h ⊢
            by_cases hc : score < 60 ∧ rcState < 3
            · rw [if_pos hc] at h
              injection h with h
              refine ⟨fun _ => ⟨by simp [hc], h.symm⟩, fun hfalse => ?_⟩
              exfalso
              simp [hc] at hfalse
            · rw [if_neg hc] at h
              injection h with h
              exact ⟨fun hne => absurd h.symm hne, fun _ => h.symm⟩

/-- Witness for claim C3: the bound evaluated after a concrete start and
a concrete resume, the routing decision at retry_count = 3, and the
feedback increment on a concrete failing score. -/
theorem retry_count_invariant_witness :
    ((runUntilInterrupt oGood 10 NodeTag.planner baseState).2.2).retry_count ≤ 3
  ∧ ((start_study_flow oGood "什么是机器学习").2.2).retry_count ≤ 3
  ∧ ((submit_answers oGood ans0 sQuizFailed).2.2).retry_count ≤ 3
  ∧ should_continue sExhausted = "end"
  ∧ sRetryable.retry_count < 3
  ∧ ((feedback_node oGood sGraded).should_retry = some true
      ∧ (1 : Nat) = sGraded.retry_count + 1) :=
  ⟨retry_count_invariant.1 oGood 10 NodeTag.planner baseState (by decide),
   retry_count_invariant.2.1 oGood "什么是机器学习",
   retry_count_invariant.2.2.1 oGood ans0 sQuizFailed (by decide),
   retry_count_invariant.2.2.2.1 sExhausted rfl,
   retry_count_invariant.2.2.2.2.1 sRetryable (by decide),
   (retry_count_invariant.2.2.2.2.2 oGood sGraded 1 rfl).1 (by decide)⟩

end StudyFlow

